import Mathlib

/-!
Shallow embedding of the DCF-valuation app (src/app.py).

The single computational function of the source is calculate_projection
(src/app.py lines 58-108): it takes a per-share base metric, a growth
rate, an exit multiple, a horizon in years, a desired annual return and
the current market price, and returns a fair value, the implied annual
return from the current price, and a projection DataFrame for charting.
The UI calls it with years = 5 and EPS or FCF parameters.

Python floats are modelled as exact rationals, except the implied annual
return, whose fractional power pow(x, 1/years) lives in ℝ (Real.rpow).
The body of calculate_projection sits in a try block whose except branch
(lines 106-108) returns the sentinel (0.0, 0.0, empty DataFrame).  The
decidable predicate pyError characterises exactly the inputs on which the
Python body raises:
  - ZeroDivisionError at line 71 when pow(1 + desired_return, years) = 0;
  - ZeroDivisionError at line 76 from the integer quotient 1/years when
    years = 0 and current_price > 0;
  - ValueError at line 76 from math.pow applied to a negative base with
    the non-integral exponent 1/years (years ≥ 2) when current_price > 0
    and future_stock_price < 0.
Each component of the returned triple takes its sentinel value on pyError.

The spec additionally describes a full DCF-with-terminal-value calculator
(evaluate_dcf, spec §4.3) that has no counterpart anywhere under src/;
it is modelled from the spec below (see evaluate_dcf).
-/

/-- Tag of the "Type" column of a projection DataFrame row
(src/app.py lines 92, 99 and 100). -/
inductive RowType
  | prixProjete
  | prixActuel
  | prixCible
  deriving DecidableEq, Repr

/-- One row of the projection DataFrame built by calculate_projection:
the columns are Année, Prix Projeté, the metric column (labelled
"EPS Projeté" or "FCFPS Projeté"; the label string carries no data and is
dropped) and Type. -/
structure Row where
  annee : ℕ
  prix : ℚ
  metric : ℚ
  type : RowType
  deriving DecidableEq, Repr

/-- Line 65: future_metric = start_value * pow(1 + growth_rate, years). -/
def future_metric (start_value growth_rate : ℚ) (years : ℕ) : ℚ :=
  start_value * (1 + growth_rate) ^ years

/-- Line 68: future_stock_price = future_metric * multiple. -/
def future_stock_price (start_value growth_rate multiple : ℚ) (years : ℕ) : ℚ :=
  future_metric start_value growth_rate years * multiple

/-- Line 71: just_value = future_stock_price / pow(1 + desired_return, years).
Rational division is total with junk value 0 at a zero denominator; the
case where Python raises ZeroDivisionError here is flagged by pyError. -/
def just_value (start_value growth_rate multiple : ℚ) (years : ℕ)
    (desired_return : ℚ) : ℚ :=
  future_stock_price start_value growth_rate multiple years
    / (1 + desired_return) ^ years

/-- The inputs on which the body of calculate_projection raises and the
except branch at lines 106-108 runs: a zero denominator at line 71, the
integer quotient 1/0 at line 76, or math.pow of a negative base with the
non-integral exponent 1/years at line 76. -/
def pyError (start_value growth_rate multiple : ℚ) (years : ℕ)
    (desired_return current_price : ℚ) : Prop :=
  (1 + desired_return) ^ years = 0
    ∨ (0 < current_price ∧ years = 0)
    ∨ (0 < current_price ∧ 2 ≤ years
        ∧ future_stock_price start_value growth_rate multiple years < 0)

instance pyError.instDecidable (s g m : ℚ) (years : ℕ) (d c : ℚ) :
    Decidable (pyError s g m years d c) := by
  unfold pyError; infer_instance

/-- Lines 74-77: current_annual_return is 0.0 unless current_price > 0, in
which case it is (pow(future_stock_price / current_price, 1/years) - 1) * 100.
The fractional power forces this single definition into ℝ. -/
noncomputable def current_annual_return (start_value growth_rate multiple : ℚ)
    (years : ℕ) (current_price : ℚ) : ℝ :=
  if 0 < current_price then
    (((future_stock_price start_value growth_rate multiple years : ℝ)
        / (current_price : ℝ)) ^ ((1 : ℝ) / (years : ℝ)) - 1) * 100
  else 0

/-- Lines 80-93: the row appended to projection_data for a given year.
At year 0 the projected price is current_price when positive and 0
otherwise and the metric is start_value; at later years both follow the
compounded metric. -/
def projection_row (start_value growth_rate multiple current_price : ℚ)
    (year : ℕ) : Row :=
  if year = 0 then
    { annee := 0
      prix := if 0 < current_price then current_price else 0
      metric := start_value
      type := RowType.prixProjete }
  else
    { annee := year
      prix := start_value * (1 + growth_rate) ^ year * multiple
      metric := start_value * (1 + growth_rate) ^ year
      type := RowType.prixProjete }

/-- Lines 79-95: projection_data, one row per year in range(years + 1). -/
def projection_data (start_value growth_rate multiple current_price : ℚ)
    (years : ℕ) : List Row :=
  (List.range (years + 1)).map
    (projection_row start_value growth_rate multiple current_price)

/-- Lines 98-101: df_cible, the two marker rows (year 0, current_price,
type "Prix Actuel") and (year years, future_stock_price, type
"Prix Cible"); their metric column is 0. -/
def df_cible (start_value growth_rate multiple current_price : ℚ)
    (years : ℕ) : List Row :=
  [ { annee := 0, prix := current_price, metric := 0
      type := RowType.prixActuel }
  , { annee := years
      prix := future_stock_price start_value growth_rate multiple years
      metric := 0
      type := RowType.prixCible } ]

/-- Boolean year comparison used to model sort_values("Année"). -/
def rowLe (a b : Row) : Bool :=
  Nat.ble a.annee b.annee

/-- Line 102: pd.concat([df, df_cible]).sort_values("Année"), modelled as a
stable merge sort of the concatenation by the Année column. -/
def df_final (start_value growth_rate multiple current_price : ℚ)
    (years : ℕ) : List Row :=
  (projection_data start_value growth_rate multiple current_price years
      ++ df_cible start_value growth_rate multiple current_price years).mergeSort
    rowLe

/-- First component of the value returned by calculate_projection
(line 104 on success, line 108 on the except path). -/
def calc_just_value (start_value growth_rate multiple : ℚ) (years : ℕ)
    (desired_return current_price : ℚ) : ℚ :=
  if pyError start_value growth_rate multiple years desired_return current_price
  then 0
  else just_value start_value growth_rate multiple years desired_return

/-- Second component of the value returned by calculate_projection. -/
noncomputable def calc_return (start_value growth_rate multiple : ℚ)
    (years : ℕ) (desired_return current_price : ℚ) : ℝ :=
  if pyError start_value growth_rate multiple years desired_return current_price
  then 0
  else current_annual_return start_value growth_rate multiple years current_price

/-- Third component of the value returned by calculate_projection; the
empty DataFrame of the except path becomes the empty list. -/
def calc_df (start_value growth_rate multiple : ℚ) (years : ℕ)
    (desired_return current_price : ℚ) : List Row :=
  if pyError start_value growth_rate multiple years desired_return current_price
  then []
  else df_final start_value growth_rate multiple current_price years

/-- Lines 58-108: the full return value of calculate_projection. -/
noncomputable def calculate_projection (start_value growth_rate multiple : ℚ)
    (years : ℕ) (desired_return current_price : ℚ) : ℚ × ℝ × List Row :=
  ( calc_just_value start_value growth_rate multiple years desired_return
      current_price
  , calc_return start_value growth_rate multiple years desired_return
      current_price
  , calc_df start_value growth_rate multiple years desired_return
      current_price )

/-- One point of the DCF projection series of spec §4.3 step 5: per year,
the cash flow, the discount factor and the present value. -/
structure DCFPoint where
  year : ℕ
  cash_flow : ℚ
  discount_factor : ℚ
  present_value : ℚ
  deriving DecidableEq, Repr

/-- Modelled from the spec: spec §4.3 describes a second calculator
evaluate_dcf(base_metric, growth_rate, years, discount_rate,
terminal_multiple) that is absent from src/ (the source contains only the
multiple-method calculate_projection).  Per the spec: cash_flow(year) =
base_metric * (1+growth_rate)^year, discount_factor(year) =
1/(1+discount_rate)^year, present_value(year) = cash_flow(year) *
discount_factor(year) for year = 1..years; terminal_value =
cash_flow(years) * terminal_multiple; pv_terminal = terminal_value *
discount_factor(years); intrinsic_value = sum of present values plus
pv_terminal.  The spec requires discount_rate ≠ -1 to be ensured by
validation before the call. -/
def evaluate_dcf (base_metric growth_rate : ℚ) (years : ℕ)
    (discount_rate terminal_multiple : ℚ) : ℚ × List DCFPoint :=
  let pts : List DCFPoint :=
    (List.range years).map fun i =>
      { year := i + 1
        cash_flow := base_metric * (1 + growth_rate) ^ (i + 1)
        discount_factor := 1 / (1 + discount_rate) ^ (i + 1)
        present_value := base_metric * (1 + growth_rate) ^ (i + 1)
          * (1 / (1 + discount_rate) ^ (i + 1)) }
  let pv_sum : ℚ := (pts.map (fun p => p.present_value)).sum
  let pv_terminal : ℚ := base_metric * (1 + growth_rate) ^ years
    * terminal_multiple * (1 / (1 + discount_rate) ^ years)
  (pv_sum + pv_terminal, pts)

/-! Helper lemmas shared by the claim theorems. -/

/-- Unfolded form of future_stock_price. -/
theorem future_stock_price_def (s g m : ℚ) (years : ℕ) :
    future_stock_price s g m years = s * (1 + g) ^ years * m := rfl

/-- On an erroneous input calculate_projection returns the sentinel fair
value 0. -/
theorem calc_just_value_of_error {s g m : ℚ} {years : ℕ} {d c : ℚ}
    (h : pyError s g m years d c) : calc_just_value s g m years d c = 0 := by
  rw [calc_just_value, if_pos h]

/-- On a non-erroneous input calculate_projection returns just_value. -/
theorem calc_just_value_of_ok {s g m : ℚ} {years : ℕ} {d c : ℚ}
    (h : ¬ pyError s g m years d c) :
    calc_just_value s g m years d c
      = s * (1 + g) ^ years * m / (1 + d) ^ years := by
  rw [calc_just_value, if_neg h]; rfl

/-- A non-error certificate from the hypotheses used by several claims:
the denominator at line 71 is nonzero, the horizon is positive, and the
implied-return power has a legal base. -/
theorem not_pyError_of {s g m : ℚ} {years : ℕ} {d c : ℚ}
    (hd : (1 : ℚ) + d ≠ 0) (hy : 1 ≤ years)
    (hok : c ≤ 0 ∨ years = 1 ∨ 0 ≤ future_stock_price s g m years) :
    ¬ pyError s g m years d c := by
  rintro (h1 | ⟨hc, h0⟩ | ⟨hc, h2, hneg⟩)
  · exact pow_ne_zero years hd h1
  · omega
  · rcases hok with h | h | h
    · linarith
    · omega
    · linarith

/-- C2: over the data-model domain — base_metric and multiple nonnegative
(spec §3 fixes both positive; the UI bounds them at 0.0 and 1.0) — and for
every growth_rate > -1, years ≥ 1, desired_return > -1 and every
current_price, the future price is nonnegative, so no step of the body
raises and calculate_projection returns the fair value
base_metric * (1+growth_rate)^years * multiple / (1+desired_return)^years. -/
theorem C2_fair_value_formula (s g m : ℚ) (years : ℕ) (d c : ℚ)
    (hs : 0 ≤ s) (hm : 0 ≤ m) (hg : -1 < g) (hy : 1 ≤ years) (hd : -1 < d) :
    calc_just_value s g m years d c
      = s * (1 + g) ^ years * m / (1 + d) ^ years := by
  have hfut : (0:ℚ) ≤ future_stock_price s g m years := by
    rw [future_stock_price_def]
    exact mul_nonneg (mul_nonneg hs (pow_pos (by linarith) years).le) hm
  exact calc_just_value_of_ok
    (not_pyError_of (ne_of_gt (by linarith : (0:ℚ) < 1 + d)) hy
      (Or.inr (Or.inr hfut)))

/-- C2 witness at base_metric = 2, growth_rate = 1/10, multiple = 20,
years = 5, desired_return = 3/20, current_price = 150 (the spec's
Scenario A shape, with a positive current price). -/
theorem C2_fair_value_formula_witness :
    calc_just_value 2 (1/10) 20 5 (3/20) 150
      = 2 * (1 + 1/10) ^ (5:ℕ) * 20 / (1 + 3/20) ^ (5:ℕ) :=
  C2_fair_value_formula 2 (1/10) 20 5 (3/20) 150 (by norm_num) (by norm_num)
    (by norm_num) (by norm_num) (by norm_num)

/-- C3 is false as stated: with years = 0 and current_price = 1 > 0 the
expression 1/years at line 76 raises ZeroDivisionError, the except branch
runs and the returned fair value is the sentinel 0, not
base_metric * multiple = 2. -/
theorem C3_counterexample : calc_just_value 1 0 2 0 0 1 ≠ 1 * 2 := by
  have herr : pyError 1 0 2 0 0 1 := Or.inr (Or.inl ⟨by norm_num, rfl⟩)
  rw [calc_just_value_of_error herr]
  norm_num

/-- C3 (amended): with years = 0 and current_price ≤ 0 (so that the
implied-return branch at lines 75-76 is not taken and nothing raises),
calculate_projection returns fair value base_metric * multiple, for every
growth rate and regardless of desired_return. -/
theorem C3_years_zero (s g m d c : ℚ) (hc : c ≤ 0) :
    calc_just_value s g m 0 d c = s * m := by
  have hne : ¬ pyError s g m 0 d c := by
    rintro (h1 | ⟨hc0, _⟩ | ⟨hc0, h2, _⟩)
    · simp at h1
    · linarith
    · linarith
  rw [calc_just_value_of_ok hne]
  simp

/-- C3 witness at base_metric = 7, growth_rate = 1/2, multiple = 3,
desired_return = -1, current_price = 0. -/
theorem C3_years_zero_witness : calc_just_value 7 (1/2) 3 0 (-1) 0 = 7 * 3 :=
  C3_years_zero 7 (1/2) 3 (-1) 0 (by norm_num)

/-- C6: on every input on which the body of calculate_projection raises
(the arithmetic failures characterised by pyError), the function does not
propagate the exception: the except branch at lines 106-108 returns the
sentinel fair value 0, implied return 0 and empty projection DataFrame. -/
theorem C6_error_sentinel (s g m : ℚ) (years : ℕ) (d c : ℚ)
    (h : pyError s g m years d c) :
    calc_just_value s g m years d c = 0
    ∧ calc_return s g m years d c = 0
    ∧ calc_df s g m years d c = [] :=
  ⟨by rw [calc_just_value, if_pos h],
   by rw [calc_return, if_pos h],
   by rw [calc_df, if_pos h]⟩

/-- C6 witness at the failing input years = 0 with current_price = 1
(the 1/years ZeroDivisionError). -/
theorem C6_error_sentinel_witness :
    calc_just_value 1 0 2 0 0 1 = 0
    ∧ calc_return 1 0 2 0 0 1 = 0
    ∧ calc_df 1 0 2 0 0 1 = [] :=
  C6_error_sentinel 1 0 2 0 0 1 (Or.inr (Or.inl ⟨by norm_num, rfl⟩))

/-- On a non-erroneous input calculate_projection returns
current_annual_return as its second component. -/
theorem calc_return_of_ok {s g m : ℚ} {years : ℕ} {d c : ℚ}
    (h : ¬ pyError s g m years d c) :
    calc_return s g m years d c
      = current_annual_return s g m years c := by
  rw [calc_return, if_neg h]

/-- C4 is false as stated: at current_price = 1 > 0, years = 1 and
desired_return = -1 the denominator pow(1 + desired_return, years) at
line 71 is zero, the except branch runs and the implied return is the
sentinel 0 rather than the formula value
((future_price/current_price)^(1/years) - 1) * 100 = 100. -/
theorem C4_counterexample :
    calc_return 1 0 2 1 (-1) 1 ≠ (((2:ℝ) / 1) ^ ((1:ℝ) / 1) - 1) * 100 := by
  have herr : pyError 1 0 2 1 (-1) 1 := Or.inl (by norm_num)
  rw [calc_return, if_pos herr]
  have h1 : ((1:ℝ) / 1) = 1 := by norm_num
  rw [h1, Real.rpow_one]
  norm_num

/-- C4 (amended): whenever current_price > 0, years ≥ 1,
desired_return ≠ -1 and (years = 1 or future_stock_price ≥ 0) — i.e. on
the inputs where the body does not raise — calculate_projection returns
implied_return_pct = ((future_price/current_price)^(1/years) - 1) * 100;
and for every current_price ≤ 0 it returns implied_return_pct = 0. -/
theorem C4_implied_return (s g m : ℚ) (years : ℕ) (d c : ℚ) :
    (0 < c → 1 ≤ years → d ≠ -1 →
        (years = 1 ∨ 0 ≤ future_stock_price s g m years) →
        calc_return s g m years d c
          = ((((future_stock_price s g m years : ℚ) : ℝ) / ((c : ℚ) : ℝ))
              ^ ((1:ℝ) / ((years : ℕ) : ℝ)) - 1) * 100)
    ∧ (c ≤ 0 → calc_return s g m years d c = 0) := by
  constructor
  · intro hc hy hd hok
    have hne : ¬ pyError s g m years d c :=
      not_pyError_of (fun h => hd (by linarith)) hy
        (Or.inr hok)
    rw [calc_return_of_ok hne, current_annual_return, if_pos hc]
  · intro hc
    by_cases herr : pyError s g m years d c
    · rw [calc_return, if_pos herr]
    · rw [calc_return_of_ok herr, current_annual_return,
        if_neg (not_lt.mpr hc)]

/-- C4 witness: part one at base_metric 1, growth 0, multiple 2, years 1,
desired_return 0, current_price 1; part two at current_price 0. -/
theorem C4_implied_return_witness :
    (calc_return 1 0 2 1 0 1
      = ((((future_stock_price 1 0 2 1 : ℚ) : ℝ) / ((1:ℚ) : ℝ))
          ^ ((1:ℝ) / ((1:ℕ) : ℝ)) - 1) * 100)
    ∧ calc_return 1 0 2 1 0 0 = 0 :=
  ⟨(C4_implied_return 1 0 2 1 0 1).1 (by norm_num) (by norm_num) (by norm_num)
      (Or.inl rfl),
   (C4_implied_return 1 0 2 1 0 0).2 (by norm_num)⟩

/-- C5 is false as stated: the call with current_price = 0 (sentinel) and
the non-erroneous call with current_price = 1 and future price equal to
the current price (a genuinely computed 0% return) return the very same
implied-return scalar 0, and the result triple carries no validity flag
that could tell them apart. -/
theorem C5_counterexample :
    calc_return 1 0 1 1 0 0 = 0
    ∧ calc_return 1 0 1 1 0 1 = 0
    ∧ ¬ pyError 1 0 1 1 0 1 := by
  have hne1 : ¬ pyError 1 0 1 1 0 1 := by
    rintro (h1 | ⟨_, h0⟩ | ⟨_, h2, _⟩)
    · norm_num at h1
    · norm_num at h0
    · norm_num at h2
  refine ⟨?_, ?_, hne1⟩
  · have hne0 : ¬ pyError 1 0 1 1 0 0 := by
      rintro (h1 | ⟨hc, _⟩ | ⟨hc, _, _⟩)
      · norm_num at h1
      · norm_num at hc
      · norm_num at hc
    rw [calc_return_of_ok hne0, current_annual_return, if_neg (by norm_num)]
  · rw [calc_return_of_ok hne1, current_annual_return, if_pos (by norm_num)]
    have hf : future_stock_price 1 0 1 1 = 1 := by
      rw [future_stock_price_def]; norm_num
    rw [hf]
    norm_num

/-- C5 (amended): the sentinel implied return for current_price = 0 is the
plain scalar 0, the same value a genuinely computed 0% return yields with
current_price > 0; the result of calculate_projection carries no validity
flag, so the two are not distinguishable from implied_return_pct alone. -/
theorem C5_sentinel_plain_zero :
    (∀ (s g m : ℚ) (years : ℕ) (d : ℚ), calc_return s g m years d 0 = 0)
    ∧ calc_return 1 0 1 1 0 1 = 0 ∧ ¬ pyError 1 0 1 1 0 1 := by
  have hne1 : ¬ pyError 1 0 1 1 0 1 := by
    rintro (h1 | ⟨_, h0⟩ | ⟨_, h2, _⟩)
    · norm_num at h1
    · norm_num at h0
    · norm_num at h2
  refine ⟨?_, ?_, hne1⟩
  · intro s g m years d
    by_cases herr : pyError s g m years d 0
    · rw [calc_return, if_pos herr]
    · rw [calc_return_of_ok herr, current_annual_return, if_neg (by norm_num)]
  · rw [calc_return_of_ok hne1, current_annual_return, if_pos (by norm_num)]
    have hf : future_stock_price 1 0 1 1 = 1 := by
      rw [future_stock_price_def]; norm_num
    rw [hf]
    norm_num

/-- The metric column of every projection row follows the compounded
formula, year 0 included (where the code stores start_value directly). -/
theorem projection_row_metric (s g m c : ℚ) (y : ℕ) :
    (projection_row s g m c y).metric = s * (1 + g) ^ y := by
  unfold projection_row
  by_cases h : y = 0
  · subst h; simp
  · rw [if_neg h]

/-- C8: for base_metric > 0 and growth_rate > -1 the metric column of the
projection loop (lines 80-91) is base_metric * (1+growth_rate)^year at
every year from 0 to years, with year 0 holding base_metric itself; in
particular the last row holds base_metric * (1+growth_rate)^years. -/
theorem C8_projection_metric (s g m c : ℚ) (years : ℕ)
    (hs : 0 < s) (hg : -1 < g) :
    (projection_data s g m c years).map Row.metric
      = (List.range (years + 1)).map (fun y => s * (1 + g) ^ y)
    ∧ Option.map Row.metric (projection_data s g m c years).getLast?
      = some (s * (1 + g) ^ years) := by
  have hmap : (projection_data s g m c years).map Row.metric
      = (List.range (years + 1)).map (fun y => s * (1 + g) ^ y) := by
    unfold projection_data
    rw [List.map_map]
    exact List.map_congr_left fun y _ => projection_row_metric s g m c y
  refine ⟨hmap, ?_⟩
  rw [← List.getLast?_map, hmap, List.range_succ, List.map_append]
  simp

/-- C8 witness at base_metric 3, growth_rate 1/10, years 2. -/
theorem C8_projection_metric_witness :
    (projection_data 3 (1/10) 5 7 2).map Row.metric
      = (List.range (2 + 1)).map (fun y => 3 * (1 + 1/10) ^ y)
    ∧ Option.map Row.metric (projection_data 3 (1/10) 5 7 2).getLast?
      = some (3 * (1 + 1/10) ^ (2:ℕ)) :=
  C8_projection_metric 3 (1/10) 5 7 2 (by norm_num) (by norm_num)

/-- Sum of a mapped List.range as a Finset.range sum. -/
theorem list_range_map_sum (f : ℕ → ℚ) (n : ℕ) :
    ((List.range n).map f).sum = ∑ i ∈ Finset.range n, f i := by
  induction n with
  | zero => simp
  | succ k ih =>
      rw [List.range_succ, List.map_append, List.sum_append,
        Finset.sum_range_succ, ih]
      simp

/-- Reindexing of a sum over 1..n as a sum over range n. -/
theorem sum_Icc_one (f : ℕ → ℚ) (n : ℕ) :
    ∑ y ∈ Finset.Icc 1 n, f y = ∑ i ∈ Finset.range n, f (i + 1) := by
  rw [← Nat.Ico_succ_right, Finset.sum_Ico_eq_sum_range]
  have hn : n + 1 - 1 = n := rfl
  rw [hn]
  exact Finset.sum_congr rfl fun i _ => by rw [add_comm]

/-- Closed form of the intrinsic value computed by evaluate_dcf. -/
theorem evaluate_dcf_fst (b g : ℚ) (years : ℕ) (r m : ℚ) :
    (evaluate_dcf b g years r m).1
      = (∑ i ∈ Finset.range years,
          b * (1 + g) ^ (i + 1) * (1 / (1 + r) ^ (i + 1)))
        + b * (1 + g) ^ years * m * (1 / (1 + r) ^ years) := by
  show ((((List.range years).map _).map _).sum + _) = _
  rw [List.map_map, list_range_map_sum]
  rfl

/-- C1: for every horizon years ≥ 1 the spec-modelled evaluate_dcf returns
the intrinsic value equal to the sum over year = 1..years of
base*(1+growth)^year/(1+discount)^year plus the terminal value
base*(1+growth)^years * terminal_multiple discounted by
1/(1+discount)^years, together with the per-year series of cash flow,
discount factor and present value. -/
theorem C1_evaluate_dcf (b g : ℚ) (years : ℕ) (r m : ℚ) (hy : 1 ≤ years) :
    (evaluate_dcf b g years r m).1
      = (∑ y ∈ Finset.Icc 1 years, b * (1 + g) ^ y / (1 + r) ^ y)
        + b * (1 + g) ^ years * m * (1 / (1 + r) ^ years)
    ∧ (evaluate_dcf b g years r m).2
      = (List.range years).map (fun i =>
          { year := i + 1
            cash_flow := b * (1 + g) ^ (i + 1)
            discount_factor := 1 / (1 + r) ^ (i + 1)
            present_value := b * (1 + g) ^ (i + 1)
              * (1 / (1 + r) ^ (i + 1)) } : ℕ → DCFPoint) := by
  refine ⟨?_, rfl⟩
  rw [evaluate_dcf_fst, sum_Icc_one]
  congr 1
  exact Finset.sum_congr rfl fun i _ => by rw [mul_one_div]

/-- C1 witness at base 2, growth 1/20, years 3, discount 1/10, terminal
multiple 10 (the spec's Scenario B shape). -/
theorem C1_evaluate_dcf_witness :
    (evaluate_dcf 2 (1/20) 3 (1/10) 10).1
      = (∑ y ∈ Finset.Icc 1 3, 2 * (1 + 1/20) ^ y / (1 + 1/10) ^ y)
        + 2 * (1 + 1/20) ^ (3:ℕ) * 10 * (1 / (1 + 1/10) ^ (3:ℕ))
    ∧ (evaluate_dcf 2 (1/20) 3 (1/10) 10).2
      = (List.range 3).map (fun i =>
          { year := i + 1
            cash_flow := 2 * (1 + 1/20) ^ (i + 1)
            discount_factor := 1 / (1 + 1/10) ^ (i + 1)
            present_value := 2 * (1 + 1/20) ^ (i + 1)
              * (1 / (1 + 1/10) ^ (i + 1)) } : ℕ → DCFPoint) :=
  C1_evaluate_dcf 2 (1/20) 3 (1/10) 10 (by norm_num)

/-- C9 is false as stated: with base_metric = 1 > 0, multiple = 1 > 0,
years = 1 and the fixed desired_return = -1 (current_price = 0), both the
call at growth_rate = 0 and the call at growth_rate = 1 hit the zero
denominator at line 71 and return the sentinel fair value 0, so raising
the growth rate does not increase the fair value. -/
theorem C9_counterexample :
    ¬ (calc_just_value 1 0 1 1 (-1) 0 < calc_just_value 1 1 1 1 (-1) 0) := by
  have h0 : pyError 1 0 1 1 (-1) 0 := Or.inl (by norm_num)
  have h1 : pyError 1 1 1 1 (-1) 0 := Or.inl (by norm_num)
  rw [calc_just_value_of_error h0, calc_just_value_of_error h1]
  exact lt_irrefl 0

/-- C9 (amended): holding base_metric > 0, multiple > 0 (respectively a
positive terminal multiple), years ≥ 1 and the current price fixed, and
for growth rates above -1 and a desired return (respectively discount
rate) above -1, the fair value of the multiple-method calculation and the
intrinsic value of the spec-modelled DCF calculation are both strictly
increasing in the growth rate. -/
theorem C9_growth_monotone (b m c d r tm : ℚ) (years : ℕ) (g1 g2 : ℚ)
    (hb : 0 < b) (hm : 0 < m) (htm : 0 < tm) (hy : 1 ≤ years)
    (hg1 : -1 < g1) (hg12 : g1 < g2) (hd : -1 < d) (hr : -1 < r) :
    calc_just_value b g1 m years d c < calc_just_value b g2 m years d c
    ∧ (evaluate_dcf b g1 years r tm).1 < (evaluate_dcf b g2 years r tm).1 := by
  have h1g1 : (0:ℚ) < 1 + g1 := by linarith
  have h1g2 : (0:ℚ) < 1 + g2 := by linarith
  have hpow : (1 + g1) ^ years < (1 + g2) ^ years :=
    pow_lt_pow_left₀ (by linarith) (le_of_lt h1g1) (by omega)
  constructor
  · have hfut1 : (0:ℚ) ≤ future_stock_price b g1 m years := by
      rw [future_stock_price_def]
      positivity
    have hfut2 : (0:ℚ) ≤ future_stock_price b g2 m years := by
      rw [future_stock_price_def]
      positivity
    have hne1 : ¬ pyError b g1 m years d c :=
      not_pyError_of (ne_of_gt (by linarith)) hy (Or.inr (Or.inr hfut1))
    have hne2 : ¬ pyError b g2 m years d c :=
      not_pyError_of (ne_of_gt (by linarith)) hy (Or.inr (Or.inr hfut2))
    rw [calc_just_value_of_ok hne1, calc_just_value_of_ok hne2]
    have hden : (0:ℚ) < (1 + d) ^ years := pow_pos (by linarith) years
    exact (div_lt_div_iff_of_pos_right hden).mpr
      (mul_lt_mul_of_pos_right (mul_lt_mul_of_pos_left hpow hb) hm)
  · rw [evaluate_dcf_fst, evaluate_dcf_fst]
    have hrinv : ∀ k : ℕ, (0:ℚ) < 1 / (1 + r) ^ k := fun k =>
      one_div_pos.mpr (pow_pos (by linarith) k)
    apply add_lt_add
    · apply Finset.sum_lt_sum_of_nonempty
      · exact ⟨0, Finset.mem_range.mpr (by omega)⟩
      · intro i _
        have hpi : (1 + g1) ^ (i + 1) < (1 + g2) ^ (i + 1) :=
          pow_lt_pow_left₀ (by linarith) (le_of_lt h1g1) (Nat.succ_ne_zero i)
        exact mul_lt_mul_of_pos_right
          (mul_lt_mul_of_pos_left hpi hb) (hrinv (i + 1))
    · exact mul_lt_mul_of_pos_right
        (mul_lt_mul_of_pos_right (mul_lt_mul_of_pos_left hpow hb) htm)
        (hrinv years)

/-- C9 witness: growth 0 versus 1 at base 1, multiple 1, terminal multiple
1, years 1, desired return 0, discount rate 0, current price 0. -/
theorem C9_growth_monotone_witness :
    calc_just_value 1 0 1 1 0 0 < calc_just_value 1 1 1 1 0 0
    ∧ (evaluate_dcf 1 0 1 0 1).1 < (evaluate_dcf 1 1 1 0 1).1 :=
  C9_growth_monotone 1 1 0 0 0 1 1 0 1 (by norm_num) (by norm_num)
    (by norm_num) (by norm_num) (by norm_num) (by norm_num) (by norm_num)
    (by norm_num)

/-- Membership in the sorted DataFrame is membership in the concatenation
of the projection rows and the two marker rows. -/
theorem mem_df_final {s g m c : ℚ} {years : ℕ} {row : Row} :
    row ∈ df_final s g m c years
      ↔ row ∈ projection_data s g m c years
        ∨ row ∈ df_cible s g m c years := by
  rw [df_final, List.mem_mergeSort, List.mem_append]

/-- The sorted DataFrame is sorted by the Année column. -/
theorem df_final_sorted (s g m c : ℚ) (years : ℕ) :
    List.Pairwise (fun a b => a.annee ≤ b.annee) (df_final s g m c years) := by
  have htrans : ∀ a b c' : Row,
      rowLe a b = true → rowLe b c' = true → rowLe a c' = true := by
    intro a b c' hab hbc
    simp only [rowLe, Nat.ble_eq] at *
    omega
  have htotal : ∀ a b : Row, (rowLe a b || rowLe b a) = true := by
    intro a b
    simp only [rowLe, Bool.or_eq_true, Nat.ble_eq]
    omega
  have h := List.sorted_mergeSort htrans htotal
    (projection_data s g m c years ++ df_cible s g m c years)
  exact h.imp fun hab => by simpa only [rowLe, Nat.ble_eq] using hab

/-- The projection row of any year 1 ≤ y ≤ years is in the sorted
DataFrame. -/
theorem mainRow_mem_df_final {s g m c : ℚ} {years y : ℕ}
    (hy1 : 1 ≤ y) (hy2 : y ≤ years) :
    ({ annee := y, prix := s * (1 + g) ^ y * m, metric := s * (1 + g) ^ y,
       type := RowType.prixProjete } : Row) ∈ df_final s g m c years := by
  apply mem_df_final.mpr
  left
  unfold projection_data
  apply List.mem_map.mpr
  refine ⟨y, List.mem_range.mpr (by omega), ?_⟩
  rw [projection_row, if_neg (by omega : ¬ y = 0)]

/-- The current-price marker row is in the sorted DataFrame. -/
theorem prixActuel_mem_df_final (s g m c : ℚ) (years : ℕ) :
    ({ annee := 0, prix := c, metric := 0,
       type := RowType.prixActuel } : Row) ∈ df_final s g m c years :=
  mem_df_final.mpr (Or.inr (by simp [df_cible]))

/-- The target-price marker row is in the sorted DataFrame. -/
theorem prixCible_mem_df_final (s g m c : ℚ) (years : ℕ) :
    ({ annee := years, prix := future_stock_price s g m years, metric := 0,
       type := RowType.prixCible } : Row) ∈ df_final s g m c years :=
  mem_df_final.mpr (Or.inr (by simp [df_cible]))

/-- C7 is false as stated: on the non-erroneous input base_metric 1,
growth 0, multiple 2, years 1, desired_return 0, current_price 5, the
returned series has no point at year 0 whose price is
metric_value(0) * multiple = 2 — the year-0 prices are the current price
5 (projection row) and 5 (current marker row). -/
theorem C7_counterexample :
    ¬ ∃ row ∈ calc_df 1 0 2 1 0 5,
        row.annee = 0 ∧ row.prix = 1 * (1 + 0) ^ (0:ℕ) * 2 := by
  rintro ⟨row, hrow, h0, hp⟩
  have hne : ¬ pyError 1 0 2 1 0 5 := by
    rintro (h1 | ⟨_, h0'⟩ | ⟨_, h2, _⟩)
    · norm_num at h1
    · norm_num at h0'
    · norm_num at h2
  rw [calc_df, if_neg hne] at hrow
  rcases mem_df_final.mp hrow with hmem | hmem
  · rcases List.mem_map.mp hmem with ⟨y, hy, rfl⟩
    have hy2 : y < 1 + 1 := List.mem_range.mp hy
    interval_cases y
    · rw [projection_row, if_pos rfl] at hp
      norm_num at hp
    · rw [projection_row, if_neg (by norm_num)] at h0
      norm_num at h0
  · simp only [df_cible, List.mem_cons, List.not_mem_nil, or_false] at hmem
    rcases hmem with rfl | rfl
    · norm_num at hp
    · norm_num at h0

/-- C7 (amended): on a non-erroneous input the returned series contains,
for every year y with 1 ≤ y ≤ years, the point whose price is
metric_value(y) * multiple (at year 0 the projection point instead
carries the current price, or 0 when it is not positive — see the year-0
claim), plus the two marker points (year 0, current_price) tagged
"Prix Actuel" and (year years, future price) tagged "Prix Cible", and the
series is sorted by year. -/
theorem C7_projection_series (s g m : ℚ) (years : ℕ) (d c : ℚ) (y : ℕ)
    (h : ¬ pyError s g m years d c) (hy1 : 1 ≤ y) (hy2 : y ≤ years) :
    ({ annee := y, prix := s * (1 + g) ^ y * m, metric := s * (1 + g) ^ y,
       type := RowType.prixProjete } : Row) ∈ calc_df s g m years d c
    ∧ ({ annee := 0, prix := c, metric := 0,
         type := RowType.prixActuel } : Row) ∈ calc_df s g m years d c
    ∧ ({ annee := years, prix := future_stock_price s g m years, metric := 0,
         type := RowType.prixCible } : Row) ∈ calc_df s g m years d c
    ∧ List.Pairwise (fun a b => a.annee ≤ b.annee) (calc_df s g m years d c) := by
  rw [calc_df, if_neg h]
  exact ⟨mainRow_mem_df_final hy1 hy2, prixActuel_mem_df_final s g m c years,
    prixCible_mem_df_final s g m c years, df_final_sorted s g m c years⟩

/-- C7 witness at base_metric 1, growth 0, multiple 2, years 1,
desired_return 0, current_price 5, year 1. -/
theorem C7_projection_series_witness :
    ({ annee := 1, prix := 1 * (1 + 0) ^ (1:ℕ) * 2,
       metric := 1 * (1 + 0) ^ (1:ℕ),
       type := RowType.prixProjete } : Row) ∈ calc_df 1 0 2 1 0 5
    ∧ ({ annee := 0, prix := 5, metric := 0,
         type := RowType.prixActuel } : Row) ∈ calc_df 1 0 2 1 0 5
    ∧ ({ annee := 1, prix := future_stock_price 1 0 2 1, metric := 0,
         type := RowType.prixCible } : Row) ∈ calc_df 1 0 2 1 0 5
    ∧ List.Pairwise (fun a b => a.annee ≤ b.annee) (calc_df 1 0 2 1 0 5) :=
  C7_projection_series 1 0 2 1 0 5 1
    (by norm_num [pyError, future_stock_price_def]) (le_refl 1) (le_refl 1)

/-- C10: on a non-erroneous input, every main-series row (type
"Prix Projeté") of the returned DataFrame has price equal to
current_price at year 0 when current_price > 0 and 0 otherwise — the
code uses the current price there, not base_metric * multiple — and
price base_metric * (1+growth)^year * multiple at every year ≥ 1;
moreover the year-0 current-price marker row records current_price
unconditionally, even when current_price ≤ 0. -/
theorem C10_price_columns (s g m : ℚ) (years : ℕ) (d c : ℚ) (row : Row)
    (h : ¬ pyError s g m years d c) (hrow : row ∈ calc_df s g m years d c)
    (hproj : row.type = RowType.prixProjete) :
    (row.annee = 0 → row.prix = if 0 < c then c else 0)
    ∧ (1 ≤ row.annee → row.prix = s * (1 + g) ^ row.annee * m)
    ∧ ({ annee := 0, prix := c, metric := 0,
         type := RowType.prixActuel } : Row) ∈ calc_df s g m years d c := by
  rw [calc_df, if_neg h] at hrow ⊢
  refine ⟨?_, ?_, prixActuel_mem_df_final s g m c years⟩ <;>
    rcases mem_df_final.mp hrow with hmem | hmem
  · rcases List.mem_map.mp hmem with ⟨y, hy, rfl⟩
    by_cases hy0 : y = 0
    · subst hy0
      intro _
      rw [projection_row, if_pos rfl]
    · rw [projection_row, if_neg hy0]
      intro h0
      exact absurd h0 hy0
  · simp only [df_cible, List.mem_cons, List.not_mem_nil, or_false] at hmem
    rcases hmem with rfl | rfl
    · simp at hproj
    · simp at hproj
  · rcases List.mem_map.mp hmem with ⟨y, hy, rfl⟩
    by_cases hy0 : y = 0
    · subst hy0
      rw [projection_row, if_pos rfl]
      intro hge
      simp at hge
    · rw [projection_row, if_neg hy0]
      intro _
      rfl
  · simp only [df_cible, List.mem_cons, List.not_mem_nil, or_false] at hmem
    rcases hmem with rfl | rfl
    · simp at hproj
    · simp at hproj

/-- C10 witness: the year-1 projection row at base_metric 1, growth 0,
multiple 2, years 1, desired_return 0, current_price 5. -/
theorem C10_price_columns_witness :
    ((projection_row 1 0 2 5 1).annee = 0 →
        (projection_row 1 0 2 5 1).prix = if (0:ℚ) < 5 then 5 else 0)
    ∧ (1 ≤ (projection_row 1 0 2 5 1).annee →
        (projection_row 1 0 2 5 1).prix
          = 1 * (1 + 0) ^ (projection_row 1 0 2 5 1).annee * 2)
    ∧ ({ annee := 0, prix := 5, metric := 0,
         type := RowType.prixActuel } : Row) ∈ calc_df 1 0 2 1 0 5 :=
  C10_price_columns 1 0 2 1 0 5 (projection_row 1 0 2 5 1)
    (by norm_num [pyError, future_stock_price_def])
    (by
      rw [calc_df, if_neg (by norm_num [pyError, future_stock_price_def])]
      exact mem_df_final.mpr
        (Or.inl (List.mem_map.mpr ⟨1, by simp [List.mem_range], rfl⟩)))
    rfl
